import Mathlib

/-!
Shallow embedding of the guardian-based account-recovery contract
(`services/blockchain/near-rs/account-recovery/src/lib.rs`).

Accounts (`AccountId`) and recovery ids are modelled as `String`.
`near_sdk::store::LookupMap` is modelled as an association list with
replace-on-insert semantics; `UnorderedSet` as a duplicate-free list
with insert-if-absent semantics.  Host environment inputs
(`predecessor_account_id`, `current_account_id`, `block_timestamp`)
are explicit arguments.  A contract panic (`assert!` / `panic_str`)
rolls back the whole transaction on NEAR, so each mutating entry point
returns `Except ContractError _`: on `.error` the caller's state is
unchanged.
-/

set_option linter.unusedVariables false

namespace AccountRecovery

/-- Error kinds, following the spec's §7 taxonomy; each corresponds to a
panic site in the source. -/
inductive ContractError where
  /-- "Must provide at least 2 guardians." / "Cannot set self as a guardian."
      / "Caller is not a registered guardian for this account." -/
  | validationError
  /-- "Recovery request not found." / "No guardians set for this account."
      / "Guardians not found for target account." -/
  | notFoundError
  /-- "Recovery request ID collision." / "Guardian has already approved this request." -/
  | conflictError
  /-- "Not enough guardian approvals yet." / "Recovery period has not yet passed." -/
  | policyViolation
  /-- The `#[private]` guard on `recovery_callback`: predecessor must equal
      the contract's own account. -/
  | privateOnly
  /-- "Promise not ready." in `recovery_callback`. -/
  | promiseNotReady
deriving DecidableEq, Repr

/-- `const MIN_GUARDIANS: u32 = 2` (line 6 of the source). -/
def MIN_GUARDIANS : Nat := 2

/-- `const RECOVERY_PERIOD_DAYS = 7` (line 7 of the source). -/
def RECOVERY_PERIOD_DAYS : Nat := 7

/-- `RECOVERY_PERIOD_DAYS * 24 * 60 * 60 * 1_000_000_000`, the recovery
period in nanoseconds as computed in `execute_recovery`. -/
def recoveryPeriodNanos : Nat := RECOVERY_PERIOD_DAYS * 24 * 60 * 60 * 1000000000

/-- `struct RecoveryRequest` (source lines 19-25). `approvals` is the
`UnorderedSet` of guardians who approved, kept as a duplicate-free list. -/
structure RecoveryRequest where
  account_to_recover : String
  new_public_key : String
  initiated_timestamp : Nat
  approvals : List String
  threshold : Nat
deriving DecidableEq, Repr

/-- Association-list lookup: the first binding for a key wins, matching
`LookupMap::get`. -/
def lookupMap {α : Type} : List (String × α) → String → Option α
  | [], _ => none
  | (k, v) :: rest, key => if k = key then some v else lookupMap rest key

/-- Remove every binding for a key, matching `LookupMap::remove`. -/
def removeMap {α : Type} : List (String × α) → String → List (String × α)
  | [], _ => []
  | (k, v) :: rest, key =>
      if k = key then removeMap rest key else (k, v) :: removeMap rest key

/-- Insert-or-replace a binding, matching `LookupMap::insert`. -/
def insertMap {α : Type} (m : List (String × α)) (key : String) (v : α) :
    List (String × α) :=
  (key, v) :: removeMap m key

/-- `UnorderedSet::insert`: add the element if absent. -/
def setInsert (s : List String) (x : String) : List String :=
  if x ∈ s then s else s ++ [x]

/-- `struct AccountRecovery` (source lines 40-45): the two persistent
collections. -/
structure ContractState where
  user_guardians : List (String × List String)
  active_recovery_requests : List (String × RecoveryRequest)
deriving DecidableEq, Repr

/-- `AccountRecovery::new` (source lines 51-56). -/
def new : ContractState := ⟨[], []⟩

/-- The loop body of `set_guardians` (source lines 72-75): for each guardian
in order, `assert!(signer_id != guardian)` then `guardian_set.insert`. -/
def buildGuardianSet (signer : String) : List String → List String →
    Except ContractError (List String)
  | [], acc => .ok acc
  | g :: rest, acc =>
      if signer = g then .error .validationError
      else buildGuardianSet signer rest (setInsert acc g)

/-- `set_guardians` (source lines 61-79): requires
`guardians.len() >= MIN_GUARDIANS` on the raw input list, rejects the
caller as its own guardian and stores the deduplicated set, replacing
any previous set of the caller. -/
def set_guardians (st : ContractState) (signer_id : String)
    (guardians : List String) : Except ContractError ContractState :=
  if guardians.length < MIN_GUARDIANS then .error .validationError
  else
    (buildGuardianSet signer_id guardians []).map fun gset =>
      { st with user_guardians := insertMap st.user_guardians signer_id gset }

/-- The recovery id (source lines 94-97): the hex digest of
`sha256(format!("{}{}{}", account_to_recover, new_public_key, block_timestamp))`.
The hash is external to the contract; it is modelled by the underlying
formatted string itself, which preserves the only property the contract
relies on: the id is a deterministic function of the triple. -/
def requestId (account_to_recover new_public_key : String)
    (block_timestamp : Nat) : String :=
  account_to_recover ++ new_public_key ++ toString block_timestamp

/-- `initiate_recovery` (source lines 88-117). `block_timestamp` is the
host clock in nanoseconds. Returns the new state and the recovery id. -/
def initiate_recovery (st : ContractState) (account_to_recover : String)
    (new_public_key : String) (block_timestamp : Nat) :
    Except ContractError (ContractState × String) :=
  match lookupMap st.user_guardians account_to_recover with
  | none => .error .notFoundError
  | some guardians_for_account =>
    let recovery_id := requestId account_to_recover new_public_key block_timestamp
    let request : RecoveryRequest :=
      { account_to_recover := account_to_recover
        new_public_key := new_public_key
        initiated_timestamp := block_timestamp
        approvals := []
        threshold := guardians_for_account.length / 2 + 1 }
    if (lookupMap st.active_recovery_requests recovery_id).isSome then
      .error .conflictError
    else
      .ok ({ st with active_recovery_requests :=
               insertMap st.active_recovery_requests recovery_id request },
           recovery_id)

/-- `approve_recovery` (source lines 121-136). -/
def approve_recovery (st : ContractState) (signer_id recovery_id : String) :
    Except ContractError ContractState :=
  match lookupMap st.active_recovery_requests recovery_id with
  | none => .error .notFoundError
  | some request =>
    match lookupMap st.user_guardians request.account_to_recover with
    | none => .error .notFoundError
    | some guardians_for_account =>
      if signer_id ∉ guardians_for_account then .error .validationError
      else if signer_id ∈ request.approvals then .error .conflictError
      else
        .ok { st with active_recovery_requests :=
                (insertMap st.active_recovery_requests recovery_id
                  { request with approvals := setInsert request.approvals signer_id }) }

/-- The cross-contract call dispatched by `execute_recovery`
(source lines 169-176): `update_public_key(new_pk_string)` on
`account_to_recover_id`, with the contract's own callback chained. -/
structure Dispatch where
  target_account : String
  new_public_key : String
deriving DecidableEq, Repr

/-- `elapsed_time = block_timestamp - initiated_timestamp` as `u64`
wrapping subtraction (release-profile Rust). -/
def elapsedTime (now initiated : Nat) : Nat :=
  (2 ^ 64 + now - initiated) % 2 ^ 64

/-- `execute_recovery` (source lines 143-177): requires the request to
exist, `approvals.len() >= threshold` and the recovery period elapsed;
then REMOVES the record from `active_recovery_requests` (line 161) and
dispatches the external call. -/
def execute_recovery (st : ContractState) (recovery_id : String)
    (block_timestamp : Nat) :
    Except ContractError (ContractState × Dispatch) :=
  match lookupMap st.active_recovery_requests recovery_id with
  | none => .error .notFoundError
  | some request =>
    if request.approvals.length < request.threshold then .error .policyViolation
    else if elapsedTime block_timestamp request.initiated_timestamp <
        recoveryPeriodNanos then .error .policyViolation
    else
      .ok ({ st with active_recovery_requests :=
               removeMap st.active_recovery_requests recovery_id },
           { target_account := request.account_to_recover
             new_public_key := request.new_public_key })

/-- `near_sdk::PromiseResult` as matched in `recovery_callback`. -/
inductive PromiseResult where
  | notReady
  | successful
  | failed
deriving DecidableEq, Repr

/-- `recovery_callback` (source lines 180-192).  The `#[private]`
attribute expands to a check that the predecessor equals the contract's
own account id; it is modelled as the first guard.  On both `Successful`
and `Failed` the body only logs: the ledger is NOT touched, and in
particular no record is re-added on failure (the source's own comment on
line 189 notes the missing re-add). -/
def recovery_callback (st : ContractState)
    (predecessor current_account account_id : String)
    (result : PromiseResult) : Except ContractError ContractState :=
  if predecessor ≠ current_account then .error .privateOnly
  else
    match result with
    | .notReady => .error .promiseNotReady
    | .successful => .ok st
    | .failed => .ok st

/-- `get_guardians` (source lines 196-198). -/
def get_guardians (st : ContractState) (account_id : String) :
    Option (List String) :=
  lookupMap st.user_guardians account_id

/-- `get_recovery_request` (source lines 202-204). -/
def get_recovery_request (st : ContractState) (recovery_id : String) :
    Option RecoveryRequest :=
  lookupMap st.active_recovery_requests recovery_id

/-- `get_recovery_approvals_count` (source lines 208-212). -/
def get_recovery_approvals_count (st : ContractState) (recovery_id : String) :
    Nat :=
  ((lookupMap st.active_recovery_requests recovery_id).map
    (fun r => r.approvals.length)).getD 0

/-- One externally invocable mutating operation, with its host-environment
inputs made explicit. -/
inductive Op where
  | setGuardians (signer : String) (guardians : List String)
  | initiateRecovery (account_to_recover new_public_key : String) (ts : Nat)
  | approveRecovery (signer recovery_id : String)
  | executeRecovery (recovery_id : String) (ts : Nat)
  | callback (predecessor current_account account_id : String) (r : PromiseResult)
deriving DecidableEq, Repr

/-- Apply one operation; a panic rolls the transaction back, leaving the
state unchanged. -/
def applyOp (st : ContractState) : Op → ContractState
  | .setGuardians s gs =>
      match set_guardians st s gs with
      | .ok st' => st'
      | .error _ => st
  | .initiateRecovery a pk ts =>
      match initiate_recovery st a pk ts with
      | .ok (st', _) => st'
      | .error _ => st
  | .approveRecovery s rid =>
      match approve_recovery st s rid with
      | .ok st' => st'
      | .error _ => st
  | .executeRecovery rid ts =>
      match execute_recovery st rid ts with
      | .ok (st', _) => st'
      | .error _ => st
  | .callback p c a r =>
      match recovery_callback st p c a r with
      | .ok st' => st'
      | .error _ => st

/-- Run a sequence of operations from a starting state. -/
def runOps (st : ContractState) (ops : List Op) : ContractState :=
  ops.foldl applyOp st

/-- Every guardian set in the directory is nonempty and excludes its
owner.  (The spec's stronger "size ≥ 2" fails on duplicate input lists:
see the counterexample for the corresponding claim.) -/
def GuardInv (st : ContractState) : Prop :=
  ∀ a gs, lookupMap st.user_guardians a = some gs → gs ≠ [] ∧ a ∉ gs

/-- A full happy-path-until-failure scenario: alice's recovery is fully
approved (threshold 2 of guardians bob, carol, dave), executed after the
time lock, and the external call reports `Failed` to the callback. -/
def failedRecoveryOps : List Op :=
  [Op.setGuardians "alice" ["bob", "carol", "dave"],
   Op.initiateRecovery "alice" "pk1" 0,
   Op.approveRecovery "bob" (requestId "alice" "pk1" 0),
   Op.approveRecovery "carol" (requestId "alice" "pk1" 0),
   Op.executeRecovery (requestId "alice" "pk1" 0) recoveryPeriodNanos,
   Op.callback "recovery.near" "recovery.near" "alice" PromiseResult.failed]

/-- A fully approved, time-lock-elapsed request for erin (guardians
frank and grace, threshold 2), ready for `execute_recovery`. -/
def readyExecuteOps : List Op :=
  [Op.setGuardians "erin" ["frank", "grace"],
   Op.initiateRecovery "erin" "pk2" 0,
   Op.approveRecovery "frank" (requestId "erin" "pk2" 0),
   Op.approveRecovery "grace" (requestId "erin" "pk2" 0)]

/-! ### Helper lemmas about the collection model -/

theorem lookup_removeMap {α : Type} (m : List (String × α)) (k a : String) :
    lookupMap (removeMap m k) a = if k = a then none else lookupMap m a := by
  induction m with
  | nil => simp [removeMap, lookupMap]
  | cons p rest ih =>
    obtain ⟨k', v⟩ := p
    by_cases h1 : k' = k
    · subst h1
      by_cases h2 : k' = a
      · subst h2; simp [removeMap, lookupMap, ih]
      · simp [removeMap, lookupMap, h2, ih]
    · by_cases h2 : k' = a
      · subst h2
        simp [removeMap, lookupMap, h1, ih, Ne.symm h1]
      · simp [removeMap, lookupMap, h1, h2, ih]

theorem lookup_insertMap {α : Type} (m : List (String × α)) (k a : String) (v : α) :
    lookupMap (insertMap m k v) a = if k = a then some v else lookupMap m a := by
  by_cases h : k = a <;> simp [insertMap, lookupMap, lookup_removeMap, h]

theorem mem_setInsert (s : List String) (x y : String) :
    y ∈ setInsert s x ↔ y ∈ s ∨ y = x := by
  by_cases h : x ∈ s
  · simp [setInsert, h]
    intro hyx; rw [hyx]; exact h
  · simp [setInsert, h]

theorem setInsert_ne_nil (s : List String) (x : String) : setInsert s x ≠ [] := by
  by_cases h : x ∈ s
  · simp [setInsert, h]
    rintro rfl; simp at h
  · simp [setInsert, h]

/-! ### Helper lemmas about `buildGuardianSet` -/

theorem buildGuardianSet_mem (signer : String) (gl : List String) :
    ∀ acc out, buildGuardianSet signer gl acc = .ok out →
      ∀ x, x ∈ out ↔ x ∈ acc ∨ x ∈ gl := by
  induction gl with
  | nil =>
    intro acc out h x
    simp [buildGuardianSet] at h
    subst h; simp
  | cons g rest ih =>
    intro acc out h x
    by_cases hg : signer = g
    · simp [buildGuardianSet, hg] at h
    · simp [buildGuardianSet, hg] at h
      rw [ih _ _ h x, mem_setInsert]
      constructor
      · rintro ((hy | rfl) | hy)
        · exact Or.inl hy
        · simp
        · simp [hy]
      · rintro (hy | hy)
        · exact Or.inl (Or.inl hy)
        · rcases List.mem_cons.mp hy with rfl | hy
          · exact Or.inl (Or.inr rfl)
          · exact Or.inr hy

theorem buildGuardianSet_ok_not_mem (signer : String) (gl : List String) :
    ∀ acc out, buildGuardianSet signer gl acc = .ok out → signer ∉ gl := by
  induction gl with
  | nil => intro _ _ _; simp
  | cons g rest ih =>
    intro acc out h
    by_cases hg : signer = g
    · simp [buildGuardianSet, hg] at h
    · simp [buildGuardianSet, hg] at h
      simp [hg]
      exact ih _ _ h

theorem buildGuardianSet_ok_of_not_mem (signer : String) (gl : List String)
    (h : signer ∉ gl) : ∀ acc, ∃ out, buildGuardianSet signer gl acc = .ok out := by
  induction gl with
  | nil => intro acc; exact ⟨acc, rfl⟩
  | cons g rest ih =>
    intro acc
    simp at h
    obtain ⟨out, hout⟩ := ih h.2 (setInsert acc g)
    exact ⟨out, by simp [buildGuardianSet, h.1, hout]⟩

theorem buildGuardianSet_const (signer g : String) (hg : signer ≠ g) :
    ∀ gl, (∀ x ∈ gl, x = g) → buildGuardianSet signer gl [g] = .ok [g] := by
  intro gl
  induction gl with
  | nil => intro _; rfl
  | cons x rest ih =>
    intro hall
    have hx : x = g := hall x (by simp)
    subst hx
    have : setInsert [x] x = [x] := by simp [setInsert]
    simp [buildGuardianSet, hg, this]
    exact ih fun y hy => hall y (by simp [hy])

/-! ### Characterisation and frame lemmas for the entry points -/

theorem set_guardians_spec (st : ContractState) (signer : String)
    (gl : List String) (hlen : 2 ≤ gl.length) (hself : signer ∉ gl) :
    ∃ gset, set_guardians st signer gl =
        .ok { st with user_guardians := insertMap st.user_guardians signer gset } ∧
      (∀ x, x ∈ gset ↔ x ∈ gl) ∧ signer ∉ gset ∧ gset ≠ [] := by
  obtain ⟨out, hout⟩ := buildGuardianSet_ok_of_not_mem signer gl hself []
  refine ⟨out, ?_, ?_, ?_, ?_⟩
  · simp [set_guardians, MIN_GUARDIANS, Nat.not_lt.mpr hlen, hout, Except.map]
  · intro x
    have := buildGuardianSet_mem signer gl [] out hout x
    simpa using this
  · have := buildGuardianSet_mem signer gl [] out hout signer
    simp at this
    intro hmem
    exact hself (this.mp hmem)
  · intro hnil
    subst hnil
    obtain ⟨g, hg⟩ : ∃ g, g ∈ gl := by
      cases gl with
      | nil => simp at hlen
      | cons g rest => exact ⟨g, by simp⟩
    have := buildGuardianSet_mem signer gl [] [] hout g
    simp at this
    exact this hg

theorem set_guardians_requests_frame (st st' : ContractState) (s : String)
    (gl : List String) (h : set_guardians st s gl = .ok st') :
    st'.active_recovery_requests = st.active_recovery_requests := by
  unfold set_guardians at h
  by_cases hlen : gl.length < MIN_GUARDIANS
  · simp [hlen] at h
  · simp only [hlen, if_neg, ite_false] at h
    cases e : buildGuardianSet s gl [] with
    | error err => simp [e, Except.map] at h
    | ok out =>
      simp [e, Except.map] at h
      rw [← h]

theorem initiate_recovery_guardians_frame (st st' : ContractState)
    (a pk rid : String) (ts : Nat)
    (h : initiate_recovery st a pk ts = .ok (st', rid)) :
    st'.user_guardians = st.user_guardians := by
  unfold initiate_recovery at h
  cases e : lookupMap st.user_guardians a with
  | none => simp [e] at h
  | some gs =>
    simp only [e] at h
    by_cases hc : (lookupMap st.active_recovery_requests (requestId a pk ts)).isSome
    · simp [hc] at h
    · simp [hc] at h
      rw [← h.1]

theorem approve_recovery_guardians_frame (st st' : ContractState)
    (s rid : String) (h : approve_recovery st s rid = .ok st') :
    st'.user_guardians = st.user_guardians := by
  unfold approve_recovery at h
  cases e : lookupMap st.active_recovery_requests rid with
  | none => simp [e] at h
  | some req =>
    simp only [e] at h
    cases e2 : lookupMap st.user_guardians req.account_to_recover with
    | none => simp [e2] at h
    | some gs =>
      simp only [e2] at h
      by_cases h1 : s ∈ gs
      · by_cases h2 : s ∈ req.approvals
        · simp [h1, h2] at h
        · simp [h1, h2] at h
          rw [← h]
      · simp [h1] at h

theorem execute_recovery_guardians_frame (st st' : ContractState)
    (rid : String) (ts : Nat) (d : Dispatch)
    (h : execute_recovery st rid ts = .ok (st', d)) :
    st'.user_guardians = st.user_guardians := by
  unfold execute_recovery at h
  cases e : lookupMap st.active_recovery_requests rid with
  | none => simp [e] at h
  | some req =>
    simp only [e] at h
    by_cases h1 : req.approvals.length < req.threshold
    · simp [h1] at h
    · by_cases h2 : elapsedTime ts req.initiated_timestamp < recoveryPeriodNanos
      · simp [h1, h2] at h
      · simp [h1, h2] at h
        rw [← h.1]

theorem recovery_callback_ok_eq (st st' : ContractState)
    (p c a : String) (r : PromiseResult)
    (h : recovery_callback st p c a r = .ok st') : st' = st := by
  unfold recovery_callback at h
  by_cases hp : p ≠ c
  · simp [hp] at h
  · cases r <;> simp [hp] at h
    all_goals exact h.symm

/-! ### The guardian-directory invariant preserved by every operation -/

theorem set_guardians_preserves_inv (st st' : ContractState) (s : String)
    (gl : List String) (hinv : GuardInv st)
    (h : set_guardians st s gl = .ok st') : GuardInv st' := by
  unfold set_guardians at h
  by_cases hlen : gl.length < MIN_GUARDIANS
  · simp [hlen] at h
  · simp only [hlen, if_neg, ite_false] at h
    cases e : buildGuardianSet s gl [] with
    | error err => simp [e, Except.map] at h
    | ok out =>
      simp [e, Except.map] at h
      intro a gs hgs
      rw [← h] at hgs
      simp only [lookup_insertMap] at hgs
      by_cases hsa : s = a
      · simp [hsa] at hgs
        subst hgs
        have hmem := buildGuardianSet_mem s gl [] out e
        constructor
        · intro hnil
          subst hnil
          have hglne : gl ≠ [] := by
            intro hgl
            rw [hgl] at hlen
            simp [MIN_GUARDIANS] at hlen
          obtain ⟨g, hg⟩ := List.exists_mem_of_ne_nil gl hglne
          have := (hmem g).mpr (Or.inr hg)
          simp at this
        · rw [← hsa]
          intro hsmem
          rcases (hmem s).mp hsmem with hfalse | hsin
          · simp at hfalse
          · exact buildGuardianSet_ok_not_mem s gl [] out e hsin
      · simp [hsa] at hgs
        exact hinv a gs hgs

theorem applyOp_preserves_inv (st : ContractState) (op : Op)
    (hinv : GuardInv st) : GuardInv (applyOp st op) := by
  cases op with
  | setGuardians s gl =>
    simp only [applyOp]
    cases e : set_guardians st s gl with
    | error err => exact hinv
    | ok st' => exact set_guardians_preserves_inv st st' s gl hinv e
  | initiateRecovery a pk ts =>
    simp only [applyOp]
    cases e : initiate_recovery st a pk ts with
    | error err => exact hinv
    | ok p =>
      obtain ⟨st', rid⟩ := p
      intro a' gs hgs
      rw [initiate_recovery_guardians_frame st st' a pk rid ts e] at hgs
      exact hinv a' gs hgs
  | approveRecovery s rid =>
    simp only [applyOp]
    cases e : approve_recovery st s rid with
    | error err => exact hinv
    | ok st' =>
      intro a' gs hgs
      rw [approve_recovery_guardians_frame st st' s rid e] at hgs
      exact hinv a' gs hgs
  | executeRecovery rid ts =>
    simp only [applyOp]
    cases e : execute_recovery st rid ts with
    | error err => exact hinv
    | ok p =>
      obtain ⟨st', d⟩ := p
      intro a' gs hgs
      rw [execute_recovery_guardians_frame st st' rid ts d e] at hgs
      exact hinv a' gs hgs
  | callback p c a r =>
    simp only [applyOp]
    cases e : recovery_callback st p c a r with
    | error err => exact hinv
    | ok st' =>
      rw [recovery_callback_ok_eq st st' p c a r e]
      exact hinv

theorem runOps_preserves_inv (ops : List Op) :
    ∀ st, GuardInv st → GuardInv (runOps st ops) := by
  induction ops with
  | nil => intro st h; exact h
  | cons op rest ih =>
    intro st h
    exact ih (applyOp st op) (applyOp_preserves_inv st op h)

theorem new_inv : GuardInv new := by
  intro a gs hgs
  simp [new, lookupMap] at hgs

theorem elapsedTime_eq_sub (now init : Nat) (h1 : init ≤ now)
    (h2 : now < 2 ^ 64) : elapsedTime now init = now - init := by
  unfold elapsedTime
  have hpow : (2 : Nat) ^ 64 = 18446744073709551616 := by norm_num
  rw [hpow]
  rw [hpow] at h2
  omega

/-! ### Claims -/

/-- C7 counterexample: the spec's guardian-set invariant "size ≥ 2"
fails.  `set_guardians` checks the length of the raw input list but
stores a set, so the duplicate list `["b", "b"]` passes the check and
leaves a stored set of size 1. -/
theorem c7_counterexample :
    get_guardians (runOps new [Op.setGuardians "a" ["b", "b"]]) "a" = some ["b"] ∧
    ¬ 2 ≤ (["b"] : List String).length := by
  constructor
  · decide
  · decide

/-- C7 (amended): for every account present in the guardian directory,
after every sequence of operations from the initial state, the stored
guardian set is nonempty and does not contain the owning account.  (The
claimed size bound of 2 does not hold; see the counterexample.) -/
theorem c7_guardian_invariant (ops : List Op) (a : String) (gs : List String)
    (h : lookupMap (runOps new ops).user_guardians a = some gs) :
    gs ≠ [] ∧ a ∉ gs :=
  runOps_preserves_inv ops new new_inv a gs h

/-- C7 witness: a concrete run reaching a directory entry, to which the
amended invariant applies. -/
theorem c7_guardian_invariant_witness :
    lookupMap (runOps new [Op.setGuardians "o" ["g", "h"]]).user_guardians "o" =
      some ["g", "h"] ∧
    ((["g", "h"] : List String) ≠ [] ∧ "o" ∉ (["g", "h"] : List String)) :=
  ⟨by decide, c7_guardian_invariant [Op.setGuardians "o" ["g", "h"]] "o" ["g", "h"]
    (by decide)⟩

/-- C8: for every guardian list of length at least 2 with no element
equal to the caller, `set_guardians` succeeds and `get_guardians` then
returns exactly the elements of that list (as a set), fully replacing
any previously stored set. -/
theorem c8_set_get_roundtrip (st : ContractState) (signer : String)
    (gl : List String) (hlen : 2 ≤ gl.length) (hself : signer ∉ gl) :
    ∃ st', set_guardians st signer gl = .ok st' ∧
      ∃ gset, get_guardians st' signer = some gset ∧ ∀ x, x ∈ gset ↔ x ∈ gl := by
  obtain ⟨gset, hok, hmem, -, -⟩ := set_guardians_spec st signer gl hlen hself
  refine ⟨_, hok, gset, ?_, hmem⟩
  simp [get_guardians, lookup_insertMap]

/-- C8 witness: the round trip at a concrete list, starting from any
prior set for the same caller (which is replaced). -/
theorem c8_set_get_roundtrip_witness :
    2 ≤ (["g", "h"] : List String).length ∧ "o" ∉ (["g", "h"] : List String) ∧
    (∃ st', set_guardians ⟨[("o", ["x", "y"])], []⟩ "o" ["g", "h"] = .ok st' ∧
      ∃ gset, get_guardians st' "o" = some gset ∧
        ∀ x, x ∈ gset ↔ x ∈ (["g", "h"] : List String)) :=
  ⟨by decide, by decide,
   c8_set_get_roundtrip ⟨[("o", ["x", "y"])], []⟩ "o" ["g", "h"]
     (by decide) (by decide)⟩

/-- C10 counterexample: the list `["a", "b"]` submitted by caller `"a"`
has length 2 and exactly one distinct non-caller element, yet
`set_guardians` aborts (self-as-guardian) instead of succeeding as the
claim states for any such list. -/
theorem c10_counterexample :
    (["a", "b"] : List String).length = 2 ∧
    ((["a", "b"] : List String).filter (fun x => !(x == "a"))).dedup = ["b"] ∧
    set_guardians new "a" ["a", "b"] = .error .validationError := by
  refine ⟨by decide, by decide, rfl⟩

/-- C10 (amended): for any input list of length at least 2, containing
no element equal to the caller, whose distinct elements number only 1,
`set_guardians` succeeds (the length check inspects the raw list), the
stored guardian set has size 1, and the threshold of a subsequent
`initiate_recovery` equals `floor(1/2) + 1 = 1`. -/
theorem c10_duplicate_collapse (st : ContractState) (signer pk g : String)
    (ts : Nat) (gl : List String) (hlen : 2 ≤ gl.length)
    (hall : ∀ x ∈ gl, x = g) (hg : g ≠ signer)
    (hfree : lookupMap st.active_recovery_requests (requestId signer pk ts) = none) :
    ∃ st' st'', set_guardians st signer gl = .ok st' ∧
      get_guardians st' signer = some [g] ∧
      initiate_recovery st' signer pk ts = .ok (st'', requestId signer pk ts) ∧
      (get_recovery_request st'' (requestId signer pk ts)).map
        (fun r => r.threshold) = some 1 := by
  have hsg : signer ≠ g := fun h => hg h.symm
  obtain ⟨x, rest, rfl⟩ : ∃ x rest, gl = x :: rest := by
    cases gl with
    | nil => simp at hlen
    | cons x rest => exact ⟨x, rest, rfl⟩
  have hx : x = g := hall x (by simp)
  subst hx
  have hbuild : buildGuardianSet signer (x :: rest) [] = .ok [x] := by
    have h0 : setInsert [] x = [x] := by simp [setInsert]
    simp only [buildGuardianSet, hsg, if_neg, ite_false, h0]
    exact buildGuardianSet_const signer x hsg rest fun y hy => hall y (by simp [hy])
  have hnl : ¬((x :: rest).length < MIN_GUARDIANS) := by
    simp only [MIN_GUARDIANS]
    omega
  have hok : set_guardians st signer (x :: rest) =
      .ok { st with user_guardians := insertMap st.user_guardians signer [x] } := by
    simp [set_guardians, hnl, hbuild, Except.map]
    simp only [MIN_GUARDIANS]
    simp only [List.length_cons] at hlen
    omega
  refine ⟨{ st with user_guardians := insertMap st.user_guardians signer [x] },
          { st with
              user_guardians := insertMap st.user_guardians signer [x],
              active_recovery_requests := insertMap st.active_recovery_requests
                (requestId signer pk ts)
                { account_to_recover := signer, new_public_key := pk,
                  initiated_timestamp := ts, approvals := [],
                  threshold := ([x] : List String).length / 2 + 1 } },
          hok, ?_, ?_, ?_⟩
  · simp [get_guardians, lookup_insertMap]
  · unfold initiate_recovery
    simp [lookup_insertMap, hfree]
  · simp [get_recovery_request, lookup_insertMap]

/-- C10 witness: caller `"a"` submits `["b", "b"]`; the call succeeds,
the stored set is `["b"]`, and the subsequent request's threshold is 1. -/
theorem c10_duplicate_collapse_witness :
    2 ≤ (["b", "b"] : List String).length ∧
    (∀ x ∈ (["b", "b"] : List String), x = "b") ∧ "b" ≠ "a" ∧
    lookupMap (new : ContractState).active_recovery_requests
      (requestId "a" "p" 0) = none ∧
    (∃ st' st'', set_guardians new "a" ["b", "b"] = .ok st' ∧
      get_guardians st' "a" = some ["b"] ∧
      initiate_recovery st' "a" "p" 0 = .ok (st'', requestId "a" "p" 0) ∧
      (get_recovery_request st'' (requestId "a" "p" 0)).map
        (fun r => r.threshold) = some 1) :=
  ⟨by decide, by decide, by decide, by decide,
   c10_duplicate_collapse new "a" "p" "b" 0 ["b", "b"]
     (by decide) (by decide) (by decide) (by decide)⟩

/-- C3 counterexample: with 2 guardians the created request's threshold
is `2/2 + 1 = 2`, not 1 as the claim states for `n = 2`. -/
theorem c3_counterexample :
    (get_recovery_request
        (runOps new [Op.setGuardians "a" ["b", "c"], Op.initiateRecovery "a" "pk" 0])
        (requestId "a" "pk" 0)).map (fun r => r.threshold) = some 2 ∧
    (2 : Nat) ≠ 1 := by
  refine ⟨by decide, by decide⟩

/-- C3 (amended): for an account whose guardian count is `n` at the
instant `initiate_recovery` runs, the created request's threshold is
`floor(n/2) + 1` — so `n = 2` gives 2 (not 1), `n = 3` gives 2 and
`n = 5` gives 3 — and the threshold is a snapshot: a later
`set_guardians` (by anyone, including the target) leaves the stored
request, and in particular its threshold, unchanged. -/
theorem c3_threshold_snapshot (st : ContractState) (a pk : String) (ts : Nat)
    (gs : List String) (hg : lookupMap st.user_guardians a = some gs)
    (hfree : lookupMap st.active_recovery_requests (requestId a pk ts) = none) :
    ∃ st', initiate_recovery st a pk ts = .ok (st', requestId a pk ts) ∧
      (get_recovery_request st' (requestId a pk ts)).map (fun r => r.threshold) =
        some (gs.length / 2 + 1) ∧
      ∀ s gl st'', set_guardians st' s gl = .ok st'' →
        get_recovery_request st'' (requestId a pk ts) =
          get_recovery_request st' (requestId a pk ts) := by
  refine ⟨{ st with active_recovery_requests :=
      (insertMap st.active_recovery_requests (requestId a pk ts)
        { account_to_recover := a, new_public_key := pk,
          initiated_timestamp := ts, approvals := [],
          threshold := gs.length / 2 + 1 }) }, ?_, ?_, ?_⟩
  · unfold initiate_recovery
    simp [hg, hfree]
  · simp [get_recovery_request, lookup_insertMap]
  · intro s gl st'' hsg
    have hframe := set_guardians_requests_frame _ _ s gl hsg
    simp [get_recovery_request, hframe]

/-- C3 witness: three guardians give threshold 2, preserved across a
later guardian-set change. -/
theorem c3_threshold_snapshot_witness :
    lookupMap (ContractState.mk [("a", ["b", "c", "d"])] []).user_guardians "a" =
      some ["b", "c", "d"] ∧
    lookupMap (ContractState.mk [("a", ["b", "c", "d"])] []).active_recovery_requests
      (requestId "a" "pk" 0) = none ∧
    (∃ st', initiate_recovery (ContractState.mk [("a", ["b", "c", "d"])] [])
        "a" "pk" 0 = .ok (st', requestId "a" "pk" 0) ∧
      (get_recovery_request st' (requestId "a" "pk" 0)).map (fun r => r.threshold) =
        some ((["b", "c", "d"] : List String).length / 2 + 1) ∧
      ∀ s gl st'', set_guardians st' s gl = .ok st'' →
        get_recovery_request st'' (requestId "a" "pk" 0) =
          get_recovery_request st' (requestId "a" "pk" 0)) :=
  ⟨by decide, by decide,
   c3_threshold_snapshot (ContractState.mk [("a", ["b", "c", "d"])] []) "a" "pk" 0
     ["b", "c", "d"] (by decide) (by decide)⟩

/-- C4: any successful `initiate_recovery` returns the id computed
deterministically from (target, new credential, timestamp); a second
call with the same three inputs computes the same id, aborts with
ConflictError ("Recovery request ID collision"), and — a panic rolling
the transaction back — leaves the ledger, and in particular the first
request's record, unchanged. -/
theorem c4_duplicate_initiate (st st' : ContractState) (a pk : String)
    (ts : Nat) (rid : String)
    (h : initiate_recovery st a pk ts = .ok (st', rid)) :
    rid = requestId a pk ts ∧
    initiate_recovery st' a pk ts = .error .conflictError ∧
    applyOp st' (Op.initiateRecovery a pk ts) = st' := by
  unfold initiate_recovery at h
  cases e : lookupMap st.user_guardians a with
  | none => rw [e] at h; simp at h
  | some gs =>
    rw [e] at h
    by_cases hc : (lookupMap st.active_recovery_requests (requestId a pk ts)).isSome
    · simp [hc] at h
    · simp [hc] at h
      obtain ⟨hst, hrid⟩ := h
      have hguard : st'.user_guardians = st.user_guardians := by rw [← hst]
      have hreq : lookupMap st'.active_recovery_requests (requestId a pk ts) =
          some { account_to_recover := a, new_public_key := pk,
                 initiated_timestamp := ts, approvals := [],
                 threshold := gs.length / 2 + 1 } := by
        rw [← hst]
        simp [lookup_insertMap]
      have hsecond : initiate_recovery st' a pk ts = .error .conflictError := by
        unfold initiate_recovery
        rw [hguard, e]
        simp [hreq]
      refine ⟨hrid.symm, hsecond, ?_⟩
      simp only [applyOp, hsecond]

/-- C4 witness: a concrete first call, with the collision on the second. -/
theorem c4_duplicate_initiate_witness :
    initiate_recovery (ContractState.mk [("a", ["b", "c"])] []) "a" "pk" 7 =
      .ok (ContractState.mk [("a", ["b", "c"])]
        [(requestId "a" "pk" 7,
          RecoveryRequest.mk "a" "pk" 7 [] 2)], requestId "a" "pk" 7) ∧
    (requestId "a" "pk" 7 = requestId "a" "pk" 7 ∧
     initiate_recovery (ContractState.mk [("a", ["b", "c"])]
       [(requestId "a" "pk" 7, RecoveryRequest.mk "a" "pk" 7 [] 2)]) "a" "pk" 7 =
       .error .conflictError ∧
     applyOp (ContractState.mk [("a", ["b", "c"])]
       [(requestId "a" "pk" 7, RecoveryRequest.mk "a" "pk" 7 [] 2)])
       (Op.initiateRecovery "a" "pk" 7) =
       ContractState.mk [("a", ["b", "c"])]
         [(requestId "a" "pk" 7, RecoveryRequest.mk "a" "pk" 7 [] 2)]) :=
  ⟨rfl,
   c4_duplicate_initiate (ContractState.mk [("a", ["b", "c"])] [])
     (ContractState.mk [("a", ["b", "c"])]
       [(requestId "a" "pk" 7, RecoveryRequest.mk "a" "pk" 7 [] 2)])
     "a" "pk" 7 (requestId "a" "pk" 7) rfl⟩

/-- C5: for every stored request, `execute_recovery` aborts with
PolicyViolation when the approval count is below the request's
threshold (the time lock is not even consulted); aborts with
PolicyViolation when approvals meet the threshold but the elapsed time
since creation is below `RECOVERY_PERIOD_DAYS` worth of nanoseconds;
and only when both gates pass does it remove the record and dispatch
the external call carrying the request's target and new credential. -/
theorem c5_execute_gates (st : ContractState) (rid : String) (now : Nat)
    (req : RecoveryRequest)
    (hreq : lookupMap st.active_recovery_requests rid = some req)
    (hmono : req.initiated_timestamp ≤ now) (hbound : now < 2 ^ 64) :
    (req.approvals.length < req.threshold →
      execute_recovery st rid now = .error .policyViolation) ∧
    (req.threshold ≤ req.approvals.length →
      now - req.initiated_timestamp < recoveryPeriodNanos →
      execute_recovery st rid now = .error .policyViolation) ∧
    (req.threshold ≤ req.approvals.length →
      recoveryPeriodNanos ≤ now - req.initiated_timestamp →
      execute_recovery st rid now =
        .ok ({ st with active_recovery_requests :=
                 removeMap st.active_recovery_requests rid },
             { target_account := req.account_to_recover,
               new_public_key := req.new_public_key })) := by
  have helapsed : elapsedTime now req.initiated_timestamp =
      now - req.initiated_timestamp :=
    elapsedTime_eq_sub now req.initiated_timestamp hmono hbound
  refine ⟨?_, ?_, ?_⟩
  · intro hlow
    unfold execute_recovery
    rw [hreq]
    simp [hlow]
  · intro hmet hearly
    unfold execute_recovery
    rw [hreq]
    simp [Nat.not_lt.mpr hmet, helapsed, hearly]
  · intro hmet hlate
    unfold execute_recovery
    rw [hreq]
    simp [Nat.not_lt.mpr hmet, helapsed, Nat.not_lt.mpr hlate]

/-- C5 witness: a fully approved request (threshold 2, approvals 2,
created at time 0) executed exactly at the recovery period: both gates
pass and the call dispatches. -/
theorem c5_execute_gates_witness :
    lookupMap (ContractState.mk [("a", ["b", "c"])]
        [("r", RecoveryRequest.mk "a" "pk" 0 ["b", "c"] 2)]).active_recovery_requests
      "r" = some (RecoveryRequest.mk "a" "pk" 0 ["b", "c"] 2) ∧
    (RecoveryRequest.mk "a" "pk" 0 ["b", "c"] 2).initiated_timestamp ≤
      recoveryPeriodNanos ∧
    recoveryPeriodNanos < 2 ^ 64 ∧
    ((RecoveryRequest.mk "a" "pk" 0 ["b", "c"] 2).approvals.length <
        (RecoveryRequest.mk "a" "pk" 0 ["b", "c"] 2).threshold →
      execute_recovery (ContractState.mk [("a", ["b", "c"])]
        [("r", RecoveryRequest.mk "a" "pk" 0 ["b", "c"] 2)]) "r" recoveryPeriodNanos =
        .error .policyViolation) ∧
    ((RecoveryRequest.mk "a" "pk" 0 ["b", "c"] 2).threshold ≤
        (RecoveryRequest.mk "a" "pk" 0 ["b", "c"] 2).approvals.length →
      recoveryPeriodNanos - (RecoveryRequest.mk "a" "pk" 0 ["b", "c"] 2).initiated_timestamp <
        recoveryPeriodNanos →
      execute_recovery (ContractState.mk [("a", ["b", "c"])]
        [("r", RecoveryRequest.mk "a" "pk" 0 ["b", "c"] 2)]) "r" recoveryPeriodNanos =
        .error .policyViolation) ∧
    ((RecoveryRequest.mk "a" "pk" 0 ["b", "c"] 2).threshold ≤
        (RecoveryRequest.mk "a" "pk" 0 ["b", "c"] 2).approvals.length →
      recoveryPeriodNanos ≤
        recoveryPeriodNanos - (RecoveryRequest.mk "a" "pk" 0 ["b", "c"] 2).initiated_timestamp →
      execute_recovery (ContractState.mk [("a", ["b", "c"])]
        [("r", RecoveryRequest.mk "a" "pk" 0 ["b", "c"] 2)]) "r" recoveryPeriodNanos =
        .ok (ContractState.mk [("a", ["b", "c"])] [],
             Dispatch.mk "a" "pk")) := by
  have h := c5_execute_gates (ContractState.mk [("a", ["b", "c"])]
      [("r", RecoveryRequest.mk "a" "pk" 0 ["b", "c"] 2)]) "r" recoveryPeriodNanos
      (RecoveryRequest.mk "a" "pk" 0 ["b", "c"] 2) (by decide) (by decide) (by decide)
  exact ⟨by decide, by decide, by decide, h.1, h.2.1, h.2.2⟩

/-- C6: for every stored request whose target has a guardian directory
entry, `approve_recovery` aborts when the caller is not in the target's
current guardian set; aborts when the caller has already approved; and
on success adds the caller to the request's approver set with no other
state change: the guardian directory is untouched, the updated record
differs only in its approver set, and every other request is unchanged. -/
theorem c6_approve_rules (st : ContractState) (signer rid : String)
    (req : RecoveryRequest) (gs : List String)
    (hreq : lookupMap st.active_recovery_requests rid = some req)
    (hgs : lookupMap st.user_guardians req.account_to_recover = some gs) :
    (signer ∉ gs → approve_recovery st signer rid = .error .validationError) ∧
    (signer ∈ gs → signer ∈ req.approvals →
      approve_recovery st signer rid = .error .conflictError) ∧
    (signer ∈ gs → signer ∉ req.approvals →
      ∃ st', approve_recovery st signer rid = .ok st' ∧
        st'.user_guardians = st.user_guardians ∧
        get_recovery_request st' rid =
          some { req with approvals := req.approvals ++ [signer] } ∧
        ∀ rid', rid' ≠ rid →
          get_recovery_request st' rid' = get_recovery_request st rid') := by
  refine ⟨?_, ?_, ?_⟩
  · intro hnot
    unfold approve_recovery
    simp only [hreq]
    simp [hgs, hnot]
  · intro hin hdup
    unfold approve_recovery
    simp only [hreq]
    simp [hgs, hin, hdup]
  · intro hin hnew
    have hins : setInsert req.approvals signer = req.approvals ++ [signer] := by
      simp [setInsert, hnew]
    refine ⟨{ st with active_recovery_requests :=
        (insertMap st.active_recovery_requests rid
          { req with approvals := req.approvals ++ [signer] }) }, ?_, rfl, ?_, ?_⟩
    · unfold approve_recovery
      simp only [hreq]
      simp [hgs, hin, hnew, hins]
    · simp [get_recovery_request, lookup_insertMap]
    · intro rid' hne
      simp [get_recovery_request, lookup_insertMap, Ne.symm hne]

/-- C6 witness: guardian "b" approves once (success, only the approver
set changes); the rules also cover non-guardian "z" and a duplicate by
"c". -/
theorem c6_approve_rules_witness :
    lookupMap (ContractState.mk [("a", ["b", "c"])]
        [("r", RecoveryRequest.mk "a" "pk" 0 ["c"] 2)]).active_recovery_requests
      "r" = some (RecoveryRequest.mk "a" "pk" 0 ["c"] 2) ∧
    lookupMap (ContractState.mk [("a", ["b", "c"])]
        [("r", RecoveryRequest.mk "a" "pk" 0 ["c"] 2)]).user_guardians
      (RecoveryRequest.mk "a" "pk" 0 ["c"] 2).account_to_recover =
      some ["b", "c"] ∧
    ("b" ∈ (["b", "c"] : List String) →
      "b" ∉ (RecoveryRequest.mk "a" "pk" 0 ["c"] 2).approvals →
      ∃ st', approve_recovery (ContractState.mk [("a", ["b", "c"])]
          [("r", RecoveryRequest.mk "a" "pk" 0 ["c"] 2)]) "b" "r" = .ok st' ∧
        st'.user_guardians =
          (ContractState.mk [("a", ["b", "c"])]
            [("r", RecoveryRequest.mk "a" "pk" 0 ["c"] 2)]).user_guardians ∧
        get_recovery_request st' "r" =
          some { RecoveryRequest.mk "a" "pk" 0 ["c"] 2 with
                   approvals := (RecoveryRequest.mk "a" "pk" 0 ["c"] 2).approvals ++ ["b"] } ∧
        ∀ rid', rid' ≠ "r" →
          get_recovery_request st' rid' =
            get_recovery_request (ContractState.mk [("a", ["b", "c"])]
              [("r", RecoveryRequest.mk "a" "pk" 0 ["c"] 2)]) rid') :=
  ⟨by decide, by decide,
   (c6_approve_rules (ContractState.mk [("a", ["b", "c"])]
       [("r", RecoveryRequest.mk "a" "pk" 0 ["c"] 2)]) "b" "r"
       (RecoveryRequest.mk "a" "pk" 0 ["c"] 2) ["b", "c"]
       (by decide) (by decide)).2.2⟩

/-- C9: `recovery_callback` is guarded by the `#[private]` check: for
every invoker whose identity differs from the contract's own account it
aborts, and — panics rolling back — the ledger state is unchanged. -/
theorem c9_callback_restricted (st : ContractState) (pred cur aid : String)
    (r : PromiseResult) (h : pred ≠ cur) :
    recovery_callback st pred cur aid r = .error .privateOnly ∧
    applyOp st (Op.callback pred cur aid r) = st := by
  have herr : recovery_callback st pred cur aid r = .error .privateOnly := by
    unfold recovery_callback
    simp [h]
  refine ⟨herr, ?_⟩
  simp only [applyOp, herr]

/-- C9 witness: an outside caller invoking the callback on a nonempty
ledger is rejected and changes nothing. -/
theorem c9_callback_restricted_witness :
    "mallory" ≠ "recovery.near" ∧
    (recovery_callback (ContractState.mk [("a", ["b", "c"])] [])
        "mallory" "recovery.near" "a" PromiseResult.successful =
      .error .privateOnly ∧
    applyOp (ContractState.mk [("a", ["b", "c"])] [])
        (Op.callback "mallory" "recovery.near" "a" PromiseResult.successful) =
      ContractState.mk [("a", ["b", "c"])] []) :=
  ⟨by decide,
   c9_callback_restricted (ContractState.mk [("a", ["b", "c"])] [])
     "mallory" "recovery.near" "a" PromiseResult.successful (by decide)⟩

/-- C1: the code does NOT implement the specified failure handling.  In
the concrete fully-approved scenario, `execute_recovery` is accepted
and dispatches (first conjunct), but the record is deleted at dispatch
and the `Failed` callback only logs, so after the failure the record is
gone (second conjunct) and a retry `execute_recovery` aborts with
"Recovery request not found" instead of re-dispatching (third
conjunct).  The spec mandates a retained `FailedRetryable` record
enabling retry without new approvals. -/
theorem c1_failure_loses_record :
    (execute_recovery (runOps new (failedRecoveryOps.take 4))
        (requestId "alice" "pk1" 0) recoveryPeriodNanos).toOption.map
      (fun p => p.2) = some (Dispatch.mk "alice" "pk1") ∧
    get_recovery_request (runOps new failedRecoveryOps)
      (requestId "alice" "pk1" 0) = none ∧
    execute_recovery (runOps new failedRecoveryOps)
      (requestId "alice" "pk1" 0) recoveryPeriodNanos = .error .notFoundError := by
  refine ⟨by decide, by decide, rfl⟩

/-- C2: the record is NOT retained when `execute_recovery` dispatches —
line 161 of the source removes it — so a second `execute_recovery` on
the same request aborts with "Recovery request not found"
(NotFoundError), not ConflictError, and there is no `Executing` state
at all.  First conjunct: the first call is accepted and dispatches;
second: the record is already gone immediately after dispatch (before
any callback); third: the duplicate call's actual abort. -/
theorem c2_no_executing_state :
    (execute_recovery (runOps new readyExecuteOps)
        (requestId "erin" "pk2" 0) recoveryPeriodNanos).toOption.map
      (fun p => p.2) = some (Dispatch.mk "erin" "pk2") ∧
    get_recovery_request
      (applyOp (runOps new readyExecuteOps)
        (Op.executeRecovery (requestId "erin" "pk2" 0) recoveryPeriodNanos))
      (requestId "erin" "pk2" 0) = none ∧
    execute_recovery
      (applyOp (runOps new readyExecuteOps)
        (Op.executeRecovery (requestId "erin" "pk2" 0) recoveryPeriodNanos))
      (requestId "erin" "pk2" 0) recoveryPeriodNanos = .error .notFoundError := by
  refine ⟨by decide, by decide, rfl⟩

end AccountRecovery
